import Mathlib

/-!
Shallow embedding of the bootstrap EDI orchestration core: the outbound
delivery pipeline (src/functions/edi/outbound/handler.ts), the SFTP poller
(protocols/sftp.ts), the FTP poller dispatch handler
(src/functions/ftp/external-poller/handler.ts) and the partnership lookup
(lib/loadPartnership.ts).  External collaborators (stash store, control
number service, translator, bucket client, remote SFTP server) are
modelled as oracle fields of explicit environment records; the control
flow of the embedded functions follows the TypeScript source line by line.
-/

namespace Bootstrap

/-- Decidable equality for `Except`, used to evaluate concrete scenarios
by `decide`. -/
instance {ε α : Type} [DecidableEq ε] [DecidableEq α] : DecidableEq (Except ε α) := fun a b =>
  match a, b with
  | .error x, .error y =>
    if h : x = y then .isTrue (by rw [h]) else .isFalse (fun hc => h (by cases hc; rfl))
  | .ok x, .ok y =>
    if h : x = y then .isTrue (by rw [h]) else .isFalse (fun hc => h (by cases hc; rfl))
  | .error _, .ok _ => .isFalse (fun hc => Except.noConfusion hc)
  | .ok _, .error _ => .isFalse (fun hc => Except.noConfusion hc)

/-! ## Outbound payload model (handler.ts)

A transaction set object is `{ heading, detail, summary }`; the handler
only inspects `heading?.transaction_set_header_ST`.  The two inspected
fields are modelled after the JavaScript access paths:
`transactionSetIdentifierCode` is
`t.heading?.transaction_set_header_ST?.transaction_set_identifier_code_01`
(`none` when any step of the optional chain is absent), and
`controlNumberValue` is the result of
`Number(t.heading?.transaction_set_header_ST?.transaction_set_control_number_02)`
restricted to integer outcomes, with `none` standing for `NaN` (a missing
field coerces to `NaN`; a non-numeric or fractional value never equals the
integer counter the validator compares against, so `none` covers those as
well). -/

structure TransactionSet where
  transactionSetIdentifierCode : Option String
  controlNumberValue : Option Int
deriving DecidableEq, Repr

/-- Guide JSON is either a single transaction set object or an array of
transaction set objects. -/
inductive GuideJson where
  | single (t : TransactionSet)
  | array (ts : List TransactionSet)
deriving DecidableEq, Repr

/-- Embeds `normalizeGuideJson` (handler.ts line 187): an array is kept,
a single object is wrapped in a one-element array. -/
def normalizeGuideJson : GuideJson → List TransactionSet
  | .single t => [t]
  | .array ts => ts

/-- Renders a JavaScript numeric value for interpolation into the error
message of the validator (`none` is `NaN`). -/
def renderNumberValue : Option Int → String
  | none => "NaN"
  | some n => toString n

/-- Error message built at handler.ts line 230. -/
def controlNumberMismatchMessage (expected : Int) (found : Option Int) : String :=
  "invalid control number for transaction set: [expected: " ++ toString expected ++
    ", found: " ++ renderNumberValue found ++ "]"

/-- Embeds the `forEach` loop of `validateTransactionSetControlNumbers`
(handler.ts lines 221-235) as a recursion carrying the mutable
`expectedControlNumber` counter. -/
def validateTransactionSetControlNumbersFrom :
    List TransactionSet → Int → Except String Unit
  | [], _ => .ok ()
  | t :: rest, expected =>
    if t.controlNumberValue = some expected then
      validateTransactionSetControlNumbersFrom rest (expected + 1)
    else
      .error (controlNumberMismatchMessage expected t.controlNumberValue)

/-- Embeds `validateTransactionSetControlNumbers` (handler.ts line 218):
normalize the payload and require the Nth (1-based) transaction set to
carry control number N, starting the counter at 1. -/
def validateTransactionSetControlNumbers (guideJson : GuideJson) : Except String Unit :=
  validateTransactionSetControlNumbersFrom (normalizeGuideJson guideJson) 1

/-- Embeds the `reduce` over a JavaScript `Set` in
`extractTransactionSetTypeFromGuideJson` (handler.ts lines 197-209):
collect the distinct identifier codes in first-insertion order. -/
def collectTransactionSetIds (ts : List TransactionSet) : List String :=
  ts.foldl
    (fun transactionSetIds t =>
      match t.transactionSetIdentifierCode with
      | some currentId =>
        if currentId ∈ transactionSetIds then transactionSetIds
        else transactionSetIds ++ [currentId]
      | none => transactionSetIds)
    []

/-- Embeds `extractTransactionSetTypeFromGuideJson` (handler.ts line 193):
exactly one distinct embedded identifier code is required. -/
def extractTransactionSetTypeFromGuideJson (guideJson : GuideJson) : Except String String :=
  match collectTransactionSetIds (normalizeGuideJson guideJson) with
  | [uniqueId] => .ok uniqueId
  | _ => .error "unable to determine transaction set type from input"

structure OutboundMetadata where
  sendingPartnerId : String
  receivingPartnerId : String
  transactionSet : Option String
deriving DecidableEq, Repr

structure OutboundEvent where
  metadata : OutboundMetadata
  payload : GuideJson
deriving DecidableEq, Repr

/-- Embeds `determineTransactionSetType` (handler.ts line 180): the
`??` fallback from `metadata.transactionSet` to payload extraction. -/
def determineTransactionSetType (event : OutboundEvent) : Except String String :=
  match event.metadata.transactionSet with
  | some explicitType => .ok explicitType
  | none => extractTransactionSetTypeFromGuideJson event.payload

/-! ## Outbound pipeline (handler.ts lines 30-178)

All external collaborators of the handler live behind module boundaries
(`lib/loadPartnerProfile`, `lib/generateControlNumber`, `lib/translateV3`,
`lib/deliverToDestination`, `lib/mappings`, `lib/resolveGuide`,
`lib/transactionSetConfigs`, `lib/lookupFunctionalIdentifierCode`), none of
which is part of the core under study; each is modelled as an oracle field
of `OutboundEnv` returning `Except` (any of them may throw).  The handler
body itself is embedded faithfully. -/

structure PartnerProfile where
  partnerInterchangeQualifier : String
  partnerInterchangeId : String
  partnerApplicationId : String
deriving DecidableEq, Repr

/-- Delivery destination variants (`{type: "bucket"}` or `{type: "webhook"}`). -/
inductive Destination where
  | bucket (bucketName : String) (path : String)
  | webhook (url : String)
deriving DecidableEq, Repr

/-- One element of `transactionSetConfig.destinations`: the destination plus
an optional `mappingId`. -/
structure DestinationConfig where
  destination : Destination
  mappingId : Option String
deriving DecidableEq, Repr

structure TransactionSetConfig where
  guideId : String
  destinations : List DestinationConfig
  sendingPartnerId : String
  receivingPartnerId : String
  usageIndicatorCode : String
deriving DecidableEq, Repr

structure Partnership where
  transactionSets : List TransactionSetConfig
deriving DecidableEq, Repr

/-- Scope tuple passed to `generateControlNumber` (handler.ts lines 83-94). -/
structure ControlNumberScope where
  segment : String
  usageIndicatorCode : String
  sendingPartnerId : String
  receivingPartnerId : String
deriving DecidableEq, Repr

structure InterchangeHeader where
  senderQualifier : String
  senderId : String
  receiverQualifier : String
  receiverId : String
  date : String
  time : String
  controlNumber : Nat
  usageIndicatorCode : String
deriving DecidableEq, Repr

structure GroupHeader where
  functionalIdentifierCode : String
  applicationSenderCode : String
  applicationReceiverCode : String
  date : String
  time : String
  controlNumber : Nat
deriving DecidableEq, Repr

structure Envelope where
  interchangeHeader : InterchangeHeader
  groupHeader : GroupHeader
deriving DecidableEq, Repr

/-- Oracle environment for one invocation of the outbound handler.
`parsedEvent` is the result of `OutboundEventSchema.parse(event)`;
the date and time fields are the `format(documentDate, ...)` strings
(the group header time carries seconds, the interchange header time does
not, per handler.ts lines 104 and 113). -/
structure OutboundEnv where
  parsedEvent : Except String OutboundEvent
  loadPartnerProfile : String → Except String PartnerProfile
  loadPartnership : String → String → Except String Partnership
  getTransactionSetConfigsForPartnership :
    Partnership → String → String → Except String (List TransactionSetConfig)
  resolveGuide : List String → String → Except String String
  resolveTransactionSetConfig :
    List TransactionSetConfig → String → Except String TransactionSetConfig
  lookupFunctionalIdentifierCode : String → Except String String
  generateControlNumber : ControlNumberScope → Except String Nat
  invokeMapping : String → GuideJson → Except String GuideJson
  translateJsonToEdi : GuideJson → String → Envelope → Except String String
  deliverToDestination : Destination → String → Except String String
  dateStamp : String
  interchangeTime : String
  groupTime : String

/-- Everything the handler has resolved by the end of handler.ts line 78,
before any control number is generated. -/
structure ResolvedOutbound where
  outboundEvent : OutboundEvent
  senderProfile : PartnerProfile
  receiverProfile : PartnerProfile
  transactionSetType : String
  guideId : String
  transactionSetConfig : TransactionSetConfig
  functionalIdentifierCode : String
deriving DecidableEq, Repr

/-- Embeds handler.ts lines 36-78: the resolution prefix of the handler,
every step of which precedes control number generation and aborts the
whole execution on failure. -/
def resolveOutbound (env : OutboundEnv) : Except String ResolvedOutbound := do
  let outboundEvent ← env.parsedEvent
  let sendingPartnerId := outboundEvent.metadata.sendingPartnerId
  let senderProfile ← env.loadPartnerProfile sendingPartnerId
  let receivingPartnerId := outboundEvent.metadata.receivingPartnerId
  let receiverProfile ← env.loadPartnerProfile receivingPartnerId
  let partnership ← env.loadPartnership sendingPartnerId receivingPartnerId
  let transactionSetType ← determineTransactionSetType outboundEvent
  let transactionSetConfigs ←
    env.getTransactionSetConfigsForPartnership partnership sendingPartnerId receivingPartnerId
  let guideId ←
    env.resolveGuide (transactionSetConfigs.map (fun config => config.guideId)) transactionSetType
  let transactionSetConfig ← env.resolveTransactionSetConfig transactionSetConfigs guideId
  let functionalIdentifierCode ← env.lookupFunctionalIdentifierCode transactionSetType
  pure
    { outboundEvent := outboundEvent
      senderProfile := senderProfile
      receiverProfile := receiverProfile
      transactionSetType := transactionSetType
      guideId := guideId
      transactionSetConfig := transactionSetConfig
      functionalIdentifierCode := functionalIdentifierCode }

/-- Scope of the first `generateControlNumber` call (handler.ts line 83). -/
def isaScope (ctx : ResolvedOutbound) : ControlNumberScope :=
  { segment := "ISA"
    usageIndicatorCode := ctx.transactionSetConfig.usageIndicatorCode
    sendingPartnerId := ctx.outboundEvent.metadata.sendingPartnerId
    receivingPartnerId := ctx.outboundEvent.metadata.receivingPartnerId }

/-- Scope of the second `generateControlNumber` call (handler.ts line 89). -/
def gsScope (ctx : ResolvedOutbound) : ControlNumberScope :=
  { segment := "GS"
    usageIndicatorCode := ctx.transactionSetConfig.usageIndicatorCode
    sendingPartnerId := ctx.outboundEvent.metadata.sendingPartnerId
    receivingPartnerId := ctx.outboundEvent.metadata.receivingPartnerId }

/-- Embeds the envelope construction of handler.ts lines 97-116; it is
built once per event and shared by every destination attempt. -/
def buildEnvelope (env : OutboundEnv) (ctx : ResolvedOutbound)
    (isaControlNumber gsControlNumber : Nat) : Envelope :=
  { interchangeHeader :=
      { senderQualifier := ctx.senderProfile.partnerInterchangeQualifier
        senderId := ctx.senderProfile.partnerInterchangeId
        receiverQualifier := ctx.receiverProfile.partnerInterchangeQualifier
        receiverId := ctx.receiverProfile.partnerInterchangeId
        date := env.dateStamp
        time := env.interchangeTime
        controlNumber := isaControlNumber
        usageIndicatorCode := ctx.transactionSetConfig.usageIndicatorCode }
    groupHeader :=
      { functionalIdentifierCode := ctx.functionalIdentifierCode
        applicationSenderCode := ctx.senderProfile.partnerApplicationId
        applicationReceiverCode := ctx.receiverProfile.partnerApplicationId
        date := env.dateStamp
        time := env.groupTime
        controlNumber := gsControlNumber } }

/-- Embeds the mapping step of one destination attempt (handler.ts lines
123-126): invoke the mapping when a `mappingId` is configured, otherwise
use the raw payload. -/
def mappedGuideJson (env : OutboundEnv) (payload : GuideJson)
    (dc : DestinationConfig) : Except String GuideJson :=
  match dc.mappingId with
  | some mappingId => env.invokeMapping mappingId payload
  | none => .ok payload

/-- Embeds handler.ts lines 137-138: a bucket destination has the object
key `{isaControlNumber}-{transactionSetType}.edi` appended to its
configured path; a webhook destination is unchanged. -/
def resolveDeliveryDestination (destination : Destination)
    (isaControlNumber : Nat) (transactionSetType : String) : Destination :=
  match destination with
  | .bucket bucketName path =>
    .bucket bucketName
      (path ++ "/" ++ toString isaControlNumber ++ "-" ++ transactionSetType ++ ".edi")
  | .webhook url => .webhook url

/-- Embeds the async closure mapped over `transactionSetConfig.destinations`
(handler.ts lines 120-141): mapping, control number validation,
translation, destination path resolution, delivery.  A thrown error at any
step rejects this attempt only. -/
def attemptDestination (env : OutboundEnv) (payload : GuideJson) (guideId : String)
    (envelope : Envelope) (isaControlNumber : Nat) (transactionSetType : String)
    (dc : DestinationConfig) : Except String String := do
  let guideJson ← mappedGuideJson env payload dc
  match validateTransactionSetControlNumbers guideJson with
  | .error e => .error e
  | .ok _ => do
    let translation ← env.translateJsonToEdi guideJson guideId envelope
    env.deliverToDestination
      (resolveDeliveryDestination dc.destination isaControlNumber transactionSetType)
      translation

/-- Embeds `Promise.allSettled` over the destination attempts (handler.ts
line 118): every destination yields exactly one settled result, computed
from that destination alone. -/
def settledResults (env : OutboundEnv) (payload : GuideJson) (guideId : String)
    (envelope : Envelope) (isaControlNumber : Nat) (transactionSetType : String)
    (destinations : List DestinationConfig) : List (Except String String) :=
  destinations.map
    (attemptDestination env payload guideId envelope isaControlNumber transactionSetType)

/-- Fulfilled partition of the `reduce` at handler.ts lines 145-154. -/
def fulfilledOf (results : List (Except String String)) : List String :=
  results.filterMap (fun r => match r with | .ok value => some value | .error _ => none)

/-- Rejected partition of the `reduce` at handler.ts lines 145-154. -/
def rejectedOf (results : List (Except String String)) : List String :=
  results.filterMap (fun r => match r with | .ok _ => none | .error reason => some reason)

structure DeliveryPartition where
  fulfilled : List String
  rejected : List String
deriving DecidableEq, Repr

/-- Result of one handler invocation: `{statusCode: 200, deliveryResults}`
on full success, or a `failedExecution` response with optional attached
details. -/
inductive OutboundResult where
  | success (deliveryResults : List String)
  | failure (error : String) (details : Option DeliveryPartition)
deriving DecidableEq, Repr

/-- Outcome of the handler together with the scopes of the control numbers
that were successfully issued during the run (handler.ts issues them by
awaiting `generateControlNumber`; a failed await issues nothing and throws). -/
structure OutboundOutcome where
  result : OutboundResult
  issuedControlNumbers : List ControlNumberScope
deriving DecidableEq, Repr

/-- Error message of handler.ts line 161. -/
def someDeliveriesFailedMessage (rejectedCount fulfilledCount : Nat) : String :=
  "some deliveries were not successful: " ++ toString rejectedCount ++ " failed, " ++
    toString fulfilledCount ++ " succeeded"

/-- Embeds the outbound handler (handler.ts lines 30-178): resolution
prefix, two control number issuances, envelope construction, settled
fan-out over destinations, partition, and the final success or failure
response.  The `catch` block surfaces any thrown step as a
`failedExecution` response. -/
def handler (env : OutboundEnv) : OutboundOutcome :=
  match resolveOutbound env with
  | .error e => { result := .failure e none, issuedControlNumbers := [] }
  | .ok ctx =>
    match env.generateControlNumber (isaScope ctx) with
    | .error e => { result := .failure e none, issuedControlNumbers := [] }
    | .ok isaControlNumber =>
      match env.generateControlNumber (gsScope ctx) with
      | .error e => { result := .failure e none, issuedControlNumbers := [isaScope ctx] }
      | .ok gsControlNumber =>
        let envelope := buildEnvelope env ctx isaControlNumber gsControlNumber
        let results :=
          settledResults env ctx.outboundEvent.payload ctx.guideId envelope
            isaControlNumber ctx.transactionSetType ctx.transactionSetConfig.destinations
        let fulfilled := fulfilledOf results
        let rejected := rejectedOf results
        if rejected.length > 0 then
          { result :=
              .failure (someDeliveriesFailedMessage rejected.length fulfilled.length)
                (some { fulfilled := fulfilled, rejected := rejected })
            issuedControlNumbers := [isaScope ctx, gsScope ctx] }
        else
          { result := .success fulfilled
            issuedControlNumbers := [isaScope ctx, gsScope ctx] }

/-- The settled list computed by `handler` once resolution and both
control number issuances have succeeded: one shared envelope, one attempt
per configured destination. -/
def deliverySettled (env : OutboundEnv) (ctx : ResolvedOutbound)
    (isaControlNumber gsControlNumber : Nat) : List (Except String String) :=
  settledResults env ctx.outboundEvent.payload ctx.guideId
    (buildEnvelope env ctx isaControlNumber gsControlNumber) isaControlNumber
    ctx.transactionSetType ctx.transactionSetConfig.destinations

/-! ## Partnership lookup (lib/loadPartnership.ts)

The stash store behind `GetValueCommand` is modelled as a partial map from
keys to partnership records.  In the source, each key of `keysToCheck` is
tried inside a `try` block: a thrown stash call, a `null`/non-object value
and a failed `PartnershipSchema.parse` all fall through to the next key,
so `none` in the model covers every way a key can fail to yield a record. -/

/-- Keyspace name from lib/constants.ts line 12. -/
def PARTNERS_KEYSPACE_NAME : String := "partners-configuration"

/-- Stash key format of loadPartnership.ts lines 14-17. -/
def partnershipKey (first second : String) : String :=
  "partnership|" ++ first ++ "|" ++ second

/-- Error message of loadPartnership.ts lines 38-40. -/
def noPartnershipMessage (sendingPartnerId receivingPartnerId : String) : String :=
  "No partnership found for \x27" ++ sendingPartnerId ++ "\x27 and \x27" ++
    receivingPartnerId ++ "\x27 in \x27" ++ PARTNERS_KEYSPACE_NAME ++ "\x27 keyspace"

/-- Embeds `loadPartnership` (loadPartnership.ts lines 8-43): try the
sender|receiver key first, then the receiver|sender key, and throw when
neither yields a record. -/
def loadPartnership (store : String → Option Partnership)
    (sendingPartnerId receivingPartnerId : String) : Except String Partnership :=
  match store (partnershipKey sendingPartnerId receivingPartnerId) with
  | some partnership => .ok partnership
  | none =>
    match store (partnershipKey receivingPartnerId sendingPartnerId) with
    | some partnership => .ok partnership
    | none => .error (noPartnershipMessage sendingPartnerId receivingPartnerId)

/-! ## SFTP poller (functions/ftp/external-poller/protocols/sftp.ts)

The remote server and the destination bucket are modelled as oracle fields
of `SftpEnv`.  `path.normalize(a + "/" + b)` is modelled as plain
concatenation with a separator (`pathJoin`); all inputs in this
development are already in normal form, where the two agree. -/

/-- One entry returned by `sftpClient.list`: `modifyTime` is the reported
modification time in epoch milliseconds (`none` when unreported; a
reported value of `0` is falsy in JavaScript and treated like an
unreported one by the `||` fallback below). `type` is `"-"` for a plain
file. -/
structure FileInfo where
  name : String
  type : String
  modifyTime : Option Nat
deriving DecidableEq, Repr

structure SkippedItem where
  path : String
  reason : String
deriving DecidableEq, Repr

structure ProcessingError where
  path : String
  errorMessage : String
deriving DecidableEq, Repr

structure FtpPollingResults where
  processedFiles : List String
  skippedItems : List SkippedItem
  processingErrors : List ProcessingError
deriving DecidableEq, Repr

/-- Intermediate selection result (`RemoteSftpFileDetails` in types.ts);
fields the source leaves `undefined` are the empty list here, matching the
`|| []` defaults applied at sftp.ts lines 114-115. -/
structure RemoteSftpFileDetails where
  filesToProcess : List FileInfo
  skippedItems : List SkippedItem
  processingErrors : List ProcessingError
deriving DecidableEq, Repr

structure ConnectionDetails where
  protocol : String
deriving DecidableEq, Repr

/-- Poller configuration (`FtpPollerConfig` in lib/types); connection
credentials are irrelevant to the embedded logic and omitted.
`lastPollTime` is the watermark in epoch milliseconds (`none` when unset). -/
structure FtpPollerConfig where
  connectionDetails : ConnectionDetails
  remotePath : String
  remoteFiles : Option (List String)
  destinationPath : String
  deleteAfterProcessing : Bool
  lastPollTime : Option Nat
deriving DecidableEq, Repr

/-- Oracle environment for one `pollSftp` run: the shared `sftpClient`
operations, the bucket write, and the clock read by `Date.now()`. -/
structure SftpEnv where
  connect : Except String Unit
  list : String → Except String (List FileInfo)
  get : String → Except String String
  putObject : String → String → Except String Unit
  delete : String → Except String Unit
  now : Nat

/-- Models `path.normalize(dir + "/" + name)` on normal-form inputs. -/
def pathJoin (dir entryName : String) : String := dir ++ "/" ++ entryName

/-- Embeds `ftpConfig.lastPollTime?.getTime() || 0` (sftp.ts line 125). -/
def lastPollTimestamp (ftpConfig : FtpPollerConfig) : Nat :=
  ftpConfig.lastPollTime.getD 0

/-- Embeds `file.modifyTime || Date.now()` (sftp.ts line 126): an absent
or zero modification time falls back to the current time. -/
def remoteFileTimestamp (env : SftpEnv) (file : FileInfo) : Nat :=
  match file.modifyTime with
  | some t => if t = 0 then env.now else t
  | none => env.now

/-- Skip reason built at sftp.ts line 130. -/
def staleReason (remoteTimestamp lastPollTs : Nat) : String :=
  "remote timestamp (" ++ toString remoteTimestamp ++
    ") is not newer than last poll timestamp (" ++ toString lastPollTs ++ ")"

/-- Embeds the body of the per-candidate `try` block (sftp.ts lines
136-148): download, bucket write, optional remote delete.  Any failing
step throws out of the block. -/
def transferCandidate (env : SftpEnv) (ftpConfig : FtpPollerConfig)
    (file : FileInfo) : Except String Unit := do
  let remoteFilePath := pathJoin ftpConfig.remotePath file.name
  let fileContents ← env.get remoteFilePath
  let destinationKey := ftpConfig.destinationPath ++ "/" ++ file.name
  let _ ← env.putObject destinationKey fileContents
  if ftpConfig.deleteAfterProcessing then env.delete remoteFilePath else pure ()

/-- Embeds the `for await` loop over `fileDetails.filesToProcess`
(sftp.ts lines 118-162): a stale candidate is recorded as skipped and the
loop `break`s; otherwise the candidate is transferred, with any thrown
error caught and recorded as a processing error for that candidate only. -/
def pollLoop (env : SftpEnv) (ftpConfig : FtpPollerConfig) :
    List FileInfo → FtpPollingResults → FtpPollingResults
  | [], acc => acc
  | file :: rest, acc =>
    let remoteFilePath := pathJoin ftpConfig.remotePath file.name
    let lastPollTs := lastPollTimestamp ftpConfig
    let remoteTs := remoteFileTimestamp env file
    if remoteTs < lastPollTs then
      { acc with
          skippedItems :=
            acc.skippedItems ++ [{ path := remoteFilePath, reason := staleReason remoteTs lastPollTs }] }
    else
      match transferCandidate env ftpConfig file with
      | .ok _ =>
        pollLoop env ftpConfig rest
          { acc with processedFiles := acc.processedFiles ++ [remoteFilePath] }
      | .error e =>
        pollLoop env ftpConfig rest
          { acc with
              processingErrors :=
                acc.processingErrors ++ [{ path := remoteFilePath, errorMessage := e }] }

/-- Error message of sftp.ts line 182. -/
def expectedOneMatchMessage (remoteFilePath : String) : String :=
  "expected exactly one match for list of single file " ++ remoteFilePath

/-- Error message of sftp.ts line 192. -/
def notAFileMessage (file : String) : String :=
  "requested remote file " ++ file ++ ", but it is not a file"

/-- Embeds the `for await` loop of `getSpecifiedFileDetails` (sftp.ts
lines 176-194) with its accumulators: a listing that does not return
exactly one match records an error and `break`s; a single match that is
not a plain file records an error and continues with the next entry; a
thrown `sftpClient.list` propagates. -/
def getSpecifiedFileDetailsFrom (env : SftpEnv) (remotePath : String) :
    List String → List FileInfo → List ProcessingError →
      Except String RemoteSftpFileDetails
  | [], filesToProcess, processingErrors =>
    .ok { filesToProcess := filesToProcess, skippedItems := [], processingErrors := processingErrors }
  | file :: rest, filesToProcess, processingErrors =>
    match env.list (pathJoin remotePath file) with
    | .error e => .error e
    | .ok [entry] =>
      if entry.type = "-" then
        getSpecifiedFileDetailsFrom env remotePath rest
          (filesToProcess ++ [entry]) processingErrors
      else
        getSpecifiedFileDetailsFrom env remotePath rest filesToProcess
          (processingErrors ++
            [{ path := pathJoin remotePath file, errorMessage := notAFileMessage file }])
    | .ok _ =>
      .ok { filesToProcess := filesToProcess
            skippedItems := []
            processingErrors :=
              processingErrors ++
                [{ path := pathJoin remotePath file
                   errorMessage := expectedOneMatchMessage (pathJoin remotePath file) }] }

/-- Embeds `getSpecifiedFileDetails` (sftp.ts lines 169-200). -/
def getSpecifiedFileDetails (env : SftpEnv) (remotePath : String)
    (remoteFiles : List String) : Except String RemoteSftpFileDetails :=
  getSpecifiedFileDetailsFrom env remotePath remoteFiles [] []

/-- Embeds the classification step of the `reduce` in
`getAllFileDetailsForPath` (sftp.ts lines 206-218): plain files become
candidates, anything else is skipped with reason "not a file". -/
def classifyDirectoryEntry (remotePath : String) (acc : RemoteSftpFileDetails)
    (currentFile : FileInfo) : RemoteSftpFileDetails :=
  if currentFile.type = "-" then
    { acc with filesToProcess := acc.filesToProcess ++ [currentFile] }
  else
    { acc with
        skippedItems :=
          acc.skippedItems ++
            [{ path := pathJoin remotePath currentFile.name, reason := "not a file" }] }

/-- Embeds `getAllFileDetailsForPath` (sftp.ts lines 202-219). -/
def getAllFileDetailsForPath (env : SftpEnv) (remotePath : String) :
    Except String RemoteSftpFileDetails :=
  match env.list remotePath with
  | .error e => .error e
  | .ok directoryContents =>
    .ok (directoryContents.foldl (classifyDirectoryEntry remotePath)
      { filesToProcess := [], skippedItems := [], processingErrors := [] })

/-- Embeds the candidate selection ternary of sftp.ts lines 104-110: the
explicit list is used when `remoteFiles` is present and non-empty, the
full directory listing otherwise. -/
def selectFileDetails (env : SftpEnv) (ftpConfig : FtpPollerConfig) :
    Except String RemoteSftpFileDetails :=
  match ftpConfig.remoteFiles with
  | some remoteFiles =>
    if remoteFiles.length > 0 then
      getSpecifiedFileDetails env ftpConfig.remotePath remoteFiles
    else
      getAllFileDetailsForPath env ftpConfig.remotePath
  | none => getAllFileDetailsForPath env ftpConfig.remotePath

/-- Result of one `pollSftp` call: the value returned or the error thrown,
together with whether `sftpClient.end()` (sftp.ts line 164) was reached. -/
structure PollRun where
  outcome : Except String FtpPollingResults
  connectionReleased : Bool
deriving DecidableEq, Repr

/-- Embeds `pollSftp` (sftp.ts lines 99-167): connect, select candidates
(explicit list when `remoteFiles` is non-empty, full directory listing
otherwise), seed the results with the selection buckets, run the
per-candidate loop, then call `end`.  There is no try/finally around the
body, so a throw from `connect` or from the listing helpers propagates
without reaching `end`. -/
def pollSftp (env : SftpEnv) (ftpConfig : FtpPollerConfig) : PollRun :=
  match env.connect with
  | .error e => { outcome := .error e, connectionReleased := false }
  | .ok _ =>
    match selectFileDetails env ftpConfig with
    | .error e => { outcome := .error e, connectionReleased := false }
    | .ok fileDetails =>
      let initialResults : FtpPollingResults :=
        { processedFiles := []
          skippedItems := fileDetails.skippedItems
          processingErrors := fileDetails.processingErrors }
      { outcome := .ok (pollLoop env ftpConfig fileDetails.filesToProcess initialResults)
        connectionReleased := true }

/-! ## FTP poller dispatch handler (functions/ftp/external-poller/handler.ts)

The stash read plus `FtpPollerConfigMap.parse` is modelled as one oracle
returning either the parsed config map or a thrown error; the config map
itself is a partial map from config ids to configurations.  The protocol
dispatch table `pollerHandlerMap` has keys `ftp` and `sftp`; the selected
protocol implementation is the `poll` oracle. -/

/-- Keys of `pollerHandlerMap` (handler.ts lines 32-37). -/
def supportedProtocols : List String := ["ftp", "sftp"]

/-- Oracle environment for one poller handler invocation. `now` is the
`new Date()` taken at handler.ts line 106. -/
structure PollerHandlerEnv where
  stashConfigMap : Except String (String → Option FtpPollerConfig)
  poll : FtpPollerConfig → Except String FtpPollingResults
  now : Nat

/-- Response of the poller handler: polling results on success, or a
`failedExecution` response. -/
inductive PollerResponse where
  | pollingResults (results : FtpPollingResults)
  | failureResponse (message : String)
deriving DecidableEq, Repr

/-- Outcome of the poller handler together with the config map written
back to the stash (`none` when no `SetValueCommand` was sent, i.e. the
stored configuration is unchanged). -/
structure PollerOutcome where
  response : PollerResponse
  persistedConfigMap : Option (String → Option FtpPollerConfig)

/-- Value written back at handler.ts lines 106-110: the read map with only
the polled entry replaced by the config carrying the fresh `lastPollTime`. -/
def updatedConfigMap (ftpConfigMap : String → Option FtpPollerConfig)
    (ftpConfigId : String) (ftpConfig : FtpPollerConfig) (now : Nat) :
    String → Option FtpPollerConfig :=
  fun key =>
    if key = ftpConfigId then some { ftpConfig with lastPollTime := some now }
    else ftpConfigMap key

namespace FtpPoller

/-- Embeds the ftp external-poller `handler` (handler.ts lines 39-127):
read and parse the stored config map, look up the requested config,
check the protocol against the dispatch table, poll, and persist the
updated `lastPollTime` only when polling reported no processing errors.
Thrown steps are caught and become failure responses with no write. -/
def handler (env : PollerHandlerEnv) (ftpConfigId : String) : PollerOutcome :=
  match env.stashConfigMap with
  | .error e => { response := .failureResponse e, persistedConfigMap := none }
  | .ok ftpConfigMap =>
    match ftpConfigMap ftpConfigId with
    | none =>
      { response := .failureResponse ("config not found for key: " ++ ftpConfigId)
        persistedConfigMap := none }
    | some ftpConfig =>
      if ftpConfig.connectionDetails.protocol ∈ supportedProtocols then
        match env.poll ftpConfig with
        | .error e => { response := .failureResponse e, persistedConfigMap := none }
        | .ok results =>
          if results.processingErrors.length > 0 then
            { response :=
                .failureResponse "at least one processing error encountered during polling"
              persistedConfigMap := none }
          else
            { response := .pollingResults results
              persistedConfigMap :=
                some (updatedConfigMap ftpConfigMap ftpConfigId ftpConfig env.now) }
      else
        { response :=
            .failureResponse
              ("unsupported connection protocol: " ++ ftpConfig.connectionDetails.protocol)
          persistedConfigMap := none }

end FtpPoller

/-! ## Derived observations used in theorem statements -/

/-- Whether the per-candidate transfer of `file` succeeds in `env`. -/
def transferSucceeds (env : SftpEnv) (ftpConfig : FtpPollerConfig) (file : FileInfo) : Bool :=
  match transferCandidate env ftpConfig file with
  | .ok _ => true
  | .error _ => false

/-- The processed-files entry contributed by a fresh candidate when its
transfer succeeds. -/
def candidateSuccessPath (env : SftpEnv) (ftpConfig : FtpPollerConfig)
    (file : FileInfo) : Option String :=
  match transferCandidate env ftpConfig file with
  | .ok _ => some (pathJoin ftpConfig.remotePath file.name)
  | .error _ => none

/-- The processing-error entry contributed by a fresh candidate when its
transfer fails. -/
def candidateFailure (env : SftpEnv) (ftpConfig : FtpPollerConfig)
    (file : FileInfo) : Option ProcessingError :=
  match transferCandidate env ftpConfig file with
  | .ok _ => none
  | .error e => some { path := pathJoin ftpConfig.remotePath file.name, errorMessage := e }

/-- All remote paths recorded in the three result buckets of a poll. -/
def bucketedPaths (results : FtpPollingResults) : List String :=
  results.processedFiles ++ results.skippedItems.map SkippedItem.path ++
    results.processingErrors.map ProcessingError.path

/-- Selection of the plain files of a directory listing. -/
def plainFileEntry (file : FileInfo) : Option FileInfo :=
  if file.type = "-" then some file else none

/-- Selection of the skip records of a directory listing. -/
def nonFileSkip (remotePath : String) (file : FileInfo) : Option SkippedItem :=
  if file.type = "-" then none
  else some { path := pathJoin remotePath file.name, reason := "not a file" }

/-! ## Concrete inputs for counterexamples and witnesses -/

/-- Remote SFTP environment whose directory listing holds two stale plain
files (modification times 5 and 3 against watermark 10). -/
def sftpEnvTwoStale : SftpEnv :=
  { connect := .ok ()
    list := fun p => if p = "/in" then .ok [⟨"one", "-", some 5⟩, ⟨"two", "-", some 3⟩] else .ok []
    get := fun _ => .ok "data"
    putObject := fun _ _ => .ok ()
    delete := fun _ => .ok ()
    now := 100 }

def cfgTwoStale : FtpPollerConfig :=
  { connectionDetails := { protocol := "sftp" }
    remotePath := "/in"
    remoteFiles := none
    destinationPath := "/dest"
    deleteAfterProcessing := false
    lastPollTime := some 10 }

/-- Remote SFTP environment whose directory listing holds a stale plain
file followed by a fresh plain file. -/
def sftpEnvStaleThenFresh : SftpEnv :=
  { connect := .ok ()
    list := fun p => if p = "/in6" then .ok [⟨"a", "-", some 5⟩, ⟨"b", "-", some 50⟩] else .ok []
    get := fun _ => .ok "data"
    putObject := fun _ _ => .ok ()
    delete := fun _ => .ok ()
    now := 100 }

def cfgStaleThenFresh : FtpPollerConfig :=
  { connectionDetails := { protocol := "sftp" }
    remotePath := "/in6"
    remoteFiles := none
    destinationPath := "/dest"
    deleteAfterProcessing := false
    lastPollTime := some 10 }

/-- Remote SFTP environment for the explicit-list claims: listing entry
"a" resolves to a single directory match, "b" to a single plain file. -/
def sftpEnvDirThenFile : SftpEnv :=
  { connect := .ok ()
    list := fun p =>
      if p = "/r3/a" then .ok [⟨"a", "d", some 1⟩]
      else if p = "/r3/b" then .ok [⟨"b", "-", some 1⟩]
      else .ok []
    get := fun _ => .ok "data"
    putObject := fun _ _ => .ok ()
    delete := fun _ => .ok ()
    now := 100 }

/-- Remote SFTP environment whose listing phase throws. -/
def sftpEnvListingThrows : SftpEnv :=
  { connect := .ok ()
    list := fun _ => .error "permission denied"
    get := fun _ => .ok "data"
    putObject := fun _ _ => .ok ()
    delete := fun _ => .ok ()
    now := 100 }

def cfgListingThrows : FtpPollerConfig :=
  { connectionDetails := { protocol := "sftp" }
    remotePath := "/in4"
    remoteFiles := none
    destinationPath := "/dest"
    deleteAfterProcessing := false
    lastPollTime := none }

/-- Healthy remote SFTP environment with one fresh plain file, used to
witness that a returning poll releases the connection. -/
def sftpEnvHealthy : SftpEnv :=
  { connect := .ok ()
    list := fun p => if p = "/inW" then .ok [⟨"f", "-", some 50⟩] else .ok []
    get := fun _ => .ok "data"
    putObject := fun _ _ => .ok ()
    delete := fun _ => .ok ()
    now := 100 }

def cfgHealthy : FtpPollerConfig :=
  { connectionDetails := { protocol := "sftp" }
    remotePath := "/inW"
    remoteFiles := none
    destinationPath := "/dest"
    deleteAfterProcessing := false
    lastPollTime := some 10 }

/-- Sample transaction set config used by several concrete scenarios. -/
def sampleConfig : TransactionSetConfig :=
  { guideId := "guide-850"
    destinations := [{ destination := .bucket "the-bucket" "out", mappingId := none }]
    sendingPartnerId := "s"
    receivingPartnerId := "r"
    usageIndicatorCode := "T" }

def sampleProfile : PartnerProfile :=
  { partnerInterchangeQualifier := "ZZ"
    partnerInterchangeId := "SENDER"
    partnerApplicationId := "APP" }

def sampleEvent : OutboundEvent :=
  { metadata := { sendingPartnerId := "s", receivingPartnerId := "r", transactionSet := some "850" }
    payload := .array [⟨some "850", some 1⟩] }

/-- Outbound environment on which every resolution step succeeds but the
second (GS) control number issuance throws after the first (ISA) one
succeeded. -/
def outboundEnvGsFails : OutboundEnv :=
  { parsedEvent := .ok sampleEvent
    loadPartnerProfile := fun _ => .ok sampleProfile
    loadPartnership := fun _ _ => .ok { transactionSets := [sampleConfig] }
    getTransactionSetConfigsForPartnership := fun partnership _ _ => .ok partnership.transactionSets
    resolveGuide := fun _ _ => .ok "guide-850"
    resolveTransactionSetConfig := fun _ _ => .ok sampleConfig
    lookupFunctionalIdentifierCode := fun _ => .ok "PO"
    generateControlNumber := fun scope =>
      if scope.segment = "ISA" then .ok 100 else .error "control number store unavailable"
    invokeMapping := fun _ payload => .ok payload
    translateJsonToEdi := fun _ _ _ => .ok "EDI"
    deliverToDestination := fun _ _ => .ok "delivered"
    dateStamp := "2024-01-02"
    interchangeTime := "03:04"
    groupTime := "03:04:05" }

/-- The context `outboundEnvGsFails` resolves to. -/
def resolvedGsFails : ResolvedOutbound :=
  { outboundEvent := sampleEvent
    senderProfile := sampleProfile
    receiverProfile := sampleProfile
    transactionSetType := "850"
    guideId := "guide-850"
    transactionSetConfig := sampleConfig
    functionalIdentifierCode := "PO" }

/-- Transaction set config with one bucket destination and one webhook
destination. -/
def mixedConfig : TransactionSetConfig :=
  { guideId := "guide-850"
    destinations :=
      [{ destination := .bucket "the-bucket" "out", mappingId := none },
       { destination := .webhook "https://hook", mappingId := none }]
    sendingPartnerId := "s"
    receivingPartnerId := "r"
    usageIndicatorCode := "T" }

/-- Outbound environment on which resolution and both issuances succeed
and delivery succeeds for the bucket destination of `mixedConfig` but
fails for its webhook destination. -/
def outboundEnvMixed : OutboundEnv :=
  { parsedEvent := .ok sampleEvent
    loadPartnerProfile := fun _ => .ok sampleProfile
    loadPartnership := fun _ _ => .ok { transactionSets := [mixedConfig] }
    getTransactionSetConfigsForPartnership := fun partnership _ _ => .ok partnership.transactionSets
    resolveGuide := fun _ _ => .ok "guide-850"
    resolveTransactionSetConfig := fun _ _ => .ok mixedConfig
    lookupFunctionalIdentifierCode := fun _ => .ok "PO"
    generateControlNumber := fun scope => if scope.segment = "ISA" then .ok 7 else .ok 8
    invokeMapping := fun _ payload => .ok payload
    translateJsonToEdi := fun _ _ _ => .ok "EDI"
    deliverToDestination := fun dest _ =>
      match dest with
      | .webhook _ => .error "refused"
      | .bucket _ _ => .ok "delivered"
    dateStamp := "2024-01-02"
    interchangeTime := "03:04"
    groupTime := "03:04:05" }

/-- The context `outboundEnvMixed` resolves to. -/
def resolvedMixed : ResolvedOutbound :=
  { outboundEvent := sampleEvent
    senderProfile := sampleProfile
    receiverProfile := sampleProfile
    transactionSetType := "850"
    guideId := "guide-850"
    transactionSetConfig := mixedConfig
    functionalIdentifierCode := "PO" }

/-- Payload carrying control numbers 1, 2 in order. -/
def orderedPayload : GuideJson := .array [⟨some "850", some 1⟩, ⟨some "850", some 2⟩]

/-- Payload whose first transaction set carries control number 2. -/
def gappedPayload : GuideJson := .array [⟨some "850", some 2⟩]

/-- An envelope value used as the shared argument of witness attempts. -/
def sampleEnvelope : Envelope :=
  { interchangeHeader :=
      { senderQualifier := "ZZ", senderId := "SENDER", receiverQualifier := "ZZ"
        receiverId := "RECEIVER", date := "2024-01-02", time := "03:04"
        controlNumber := 7, usageIndicatorCode := "T" }
    groupHeader :=
      { functionalIdentifierCode := "PO", applicationSenderCode := "APP"
        applicationReceiverCode := "APP", date := "2024-01-02", time := "03:04:05"
        controlNumber := 8 } }

/-- Destination config with no mapping, used by validator witnesses. -/
def plainWebhookDestination : DestinationConfig :=
  { destination := .webhook "https://hook", mappingId := none }

/-- Two distinct partnership records. -/
def partnershipA : Partnership := { transactionSets := [] }

def partnershipB : Partnership := { transactionSets := [sampleConfig] }

/-- Stash store holding a different partnership record under each of the
two key orders for the pair (s, r). -/
def storeBothKeys : String → Option Partnership :=
  fun key =>
    if key = partnershipKey "s" "r" then some partnershipA
    else if key = partnershipKey "r" "s" then some partnershipB
    else none

/-- Stash store holding a record only under the key sA|rA. -/
def storeSingleKey : String → Option Partnership :=
  fun key => if key = partnershipKey "sA" "rA" then some partnershipB else none

/-- Clean polling results and a config map with two entries, used to
witness the poller handler frame property. -/
def cleanResults : FtpPollingResults :=
  { processedFiles := ["/inW/f"], skippedItems := [⟨"/inW/d", "not a file"⟩], processingErrors := [] }

def pollerConfigMapTwo : String → Option FtpPollerConfig :=
  fun key =>
    if key = "cfgA" then some cfgHealthy
    else if key = "other" then some cfgListingThrows
    else none

def pollerHandlerEnvClean : PollerHandlerEnv :=
  { stashConfigMap := .ok pollerConfigMapTwo
    poll := fun _ => .ok cleanResults
    now := 777 }

/-! ## Helper lemmas -/

/-- The control number loop from counter `e` succeeds exactly when the
i-th remaining transaction set carries the coerced value `e + i`. -/
theorem validateFrom_ok_iff (l : List TransactionSet) (e : Int) :
    validateTransactionSetControlNumbersFrom l e = .ok () ↔
      ∀ i (h : i < l.length), (l.get ⟨i, h⟩).controlNumberValue = some (e + i) := by
  induction l generalizing e with
  | nil => simp [validateTransactionSetControlNumbersFrom]
  | cons t rest ih =>
    by_cases hc : t.controlNumberValue = some e
    · constructor
      · intro hok i hi
        have hrest : validateTransactionSetControlNumbersFrom rest (e + 1) = .ok () := by
          simpa [validateTransactionSetControlNumbersFrom, hc] using hok
        match i with
        | 0 => simpa using hc
        | Nat.succ j =>
          have hj : j < rest.length := by simpa using hi
          have hv := (ih (e + 1)).mp hrest j hj
          simp only [List.get]
          rw [hv]
          congr 1
          push_cast
          ring
      · intro hall
        have hrest : ∀ i (h : i < rest.length),
            (rest.get ⟨i, h⟩).controlNumberValue = some (e + 1 + i) := by
          intro i hi
          have hv := hall (i + 1) (by simpa using Nat.succ_lt_succ hi)
          simp only [List.get] at hv
          rw [hv]
          congr 1
          push_cast
          ring
        simpa [validateTransactionSetControlNumbersFrom, hc] using (ih (e + 1)).mpr hrest
    · constructor
      · intro hok
        exact absurd hok (by simp [validateTransactionSetControlNumbersFrom, hc])
      · intro hall
        exact absurd (by simpa using hall 0 (by simp)) hc

/-! ## Claim theorems -/

/-- C1: `validateTransactionSetControlNumbers` succeeds on a payload
exactly when the Nth (1-based) transaction set of the normalized sequence
carries the embedded control number N; a validation error rejects exactly
the destination attempt it ran in, and every sibling destination settles
to the result computed from its own destination config alone. -/
theorem control_number_validation_iff_sequential :
    (∀ guideJson : GuideJson,
      validateTransactionSetControlNumbers guideJson = .ok () ↔
        ∀ i (h : i < (normalizeGuideJson guideJson).length),
          ((normalizeGuideJson guideJson).get ⟨i, h⟩).controlNumberValue = some ((i : Int) + 1))
    ∧ (∀ env payload guideId envelope isaControlNumber transactionSetType dc mapped e,
        mappedGuideJson env payload dc = .ok mapped →
        validateTransactionSetControlNumbers mapped = .error e →
        attemptDestination env payload guideId envelope isaControlNumber transactionSetType dc =
          .error e)
    ∧ (∀ env payload guideId envelope isaControlNumber transactionSetType destinations (j : Nat),
        (settledResults env payload guideId envelope isaControlNumber transactionSetType
            destinations)[j]? =
          (destinations[j]?).map
            (attemptDestination env payload guideId envelope isaControlNumber
              transactionSetType)) := by
  refine ⟨fun guideJson => ?_, fun env payload guideId envelope isa tst dc mapped e hm hv => ?_,
    fun env payload guideId envelope isa tst destinations j => ?_⟩
  · have := validateFrom_ok_iff (normalizeGuideJson guideJson) 1
    unfold validateTransactionSetControlNumbers
    simpa [add_comm] using this
  · simp [attemptDestination, hm, hv, Bind.bind, Except.bind]
  · simp [settledResults, List.getElem?_map]

/-- Witness for C1: control numbers 1, 2 in order pass; a payload starting
at control number 2 fails its own attempt with the mismatch error; the
settled slot of a destination is its own attempt result. -/
theorem control_number_validation_iff_sequential_witness :
    validateTransactionSetControlNumbers orderedPayload = .ok ()
    ∧ attemptDestination outboundEnvMixed gappedPayload "guide-850" sampleEnvelope 7 "850"
        plainWebhookDestination = .error (controlNumberMismatchMessage 1 (some 2))
    ∧ (settledResults outboundEnvMixed orderedPayload "guide-850" sampleEnvelope 7 "850"
        [plainWebhookDestination])[0]? =
        some (attemptDestination outboundEnvMixed orderedPayload "guide-850" sampleEnvelope 7 "850"
          plainWebhookDestination) :=
  ⟨(control_number_validation_iff_sequential.1 orderedPayload).mpr (by decide),
   control_number_validation_iff_sequential.2.1 outboundEnvMixed gappedPayload "guide-850"
     sampleEnvelope 7 "850" plainWebhookDestination gappedPayload
     (controlNumberMismatchMessage 1 (some 2)) rfl (by decide),
   by rw [control_number_validation_iff_sequential.2.2]; rfl⟩

/-- C10: an empty-array payload passes control number validation
vacuously, so a mapping-free destination attempt on it runs exactly the
translation-then-delivery suffix; the transaction set type resolves from
`metadata.transactionSet` when that field is supplied. -/
theorem empty_array_payload_passes_validation :
    validateTransactionSetControlNumbers (GuideJson.array []) = .ok ()
    ∧ (∀ (event : OutboundEvent) (explicitType : String),
        event.metadata.transactionSet = some explicitType →
        determineTransactionSetType event = .ok explicitType)
    ∧ (∀ env guideId envelope isaControlNumber transactionSetType destination,
        attemptDestination env (GuideJson.array []) guideId envelope isaControlNumber
            transactionSetType { destination := destination, mappingId := none } =
          (env.translateJsonToEdi (GuideJson.array []) guideId envelope).bind
            (fun translation =>
              env.deliverToDestination
                (resolveDeliveryDestination destination isaControlNumber transactionSetType)
                translation)) := by
  refine ⟨rfl, fun event explicitType h => ?_, fun env guideId envelope isa tst destination => rfl⟩
  simp [determineTransactionSetType, h]

/-- Witness for C10 at a concrete event, environment and destination. -/
theorem empty_array_payload_passes_validation_witness :
    determineTransactionSetType sampleEvent = .ok "850"
    ∧ attemptDestination outboundEnvMixed (GuideJson.array []) "guide-850" sampleEnvelope 7 "850"
        { destination := .webhook "https://hook", mappingId := none } =
        (outboundEnvMixed.translateJsonToEdi (GuideJson.array []) "guide-850" sampleEnvelope).bind
          (fun translation =>
            outboundEnvMixed.deliverToDestination
              (resolveDeliveryDestination (.webhook "https://hook") 7 "850") translation) :=
  ⟨empty_array_payload_passes_validation.2.1 sampleEvent "850" rfl,
   empty_array_payload_passes_validation.2.2 outboundEnvMixed "guide-850" sampleEnvelope 7 "850"
     (.webhook "https://hook")⟩

/-- Once resolution and both issuances have succeeded, the handler is the
aggregation of the settled delivery results. -/
theorem handler_eq_delivery (env : OutboundEnv) (ctx : ResolvedOutbound)
    (isaControlNumber gsControlNumber : Nat)
    (hres : resolveOutbound env = .ok ctx)
    (hisa : env.generateControlNumber (isaScope ctx) = .ok isaControlNumber)
    (hgs : env.generateControlNumber (gsScope ctx) = .ok gsControlNumber) :
    handler env =
      (if (rejectedOf (deliverySettled env ctx isaControlNumber gsControlNumber)).length > 0 then
        { result :=
            .failure
              (someDeliveriesFailedMessage
                (rejectedOf (deliverySettled env ctx isaControlNumber gsControlNumber)).length
                (fulfilledOf (deliverySettled env ctx isaControlNumber gsControlNumber)).length)
              (some
                { fulfilled := fulfilledOf (deliverySettled env ctx isaControlNumber gsControlNumber)
                  rejected := rejectedOf (deliverySettled env ctx isaControlNumber gsControlNumber) })
          issuedControlNumbers := [isaScope ctx, gsScope ctx] }
      else
        { result := .success (fulfilledOf (deliverySettled env ctx isaControlNumber gsControlNumber))
          issuedControlNumbers := [isaScope ctx, gsScope ctx] }) := by
  simp [handler, hres, hisa, hgs, deliverySettled]

/-- The fulfilled and rejected partitions of a settled list are exhaustive
and disjoint: their sizes add up to the number of settled results. -/
theorem fulfilled_add_rejected_length (results : List (Except String String)) :
    (fulfilledOf results).length + (rejectedOf results).length = results.length := by
  induction results with
  | nil => rfl
  | cons r rest ih =>
    cases r <;> simp [fulfilledOf, rejectedOf, List.filterMap_cons] at ih ⊢ <;> omega

/-- C5: every destination of the selected config settles to a result
computed from that destination alone (so one rejection cannot prevent the
others from completing), the aggregation holds exactly one result per
destination partitioned into fulfilled and rejected, a non-empty rejected
partition makes the handler report a structured failure carrying both
partitions, and an empty one makes it return the fulfilled results. -/
theorem destination_failure_isolation_and_aggregation :
    (∀ env payload guideId envelope isaControlNumber transactionSetType destinations,
      (settledResults env payload guideId envelope isaControlNumber transactionSetType
          destinations).length = destinations.length
      ∧ ∀ j : Nat,
          (settledResults env payload guideId envelope isaControlNumber transactionSetType
              destinations)[j]? =
            (destinations[j]?).map
              (attemptDestination env payload guideId envelope isaControlNumber
                transactionSetType))
    ∧ (∀ results, (fulfilledOf results).length + (rejectedOf results).length = results.length)
    ∧ (∀ env ctx isaControlNumber gsControlNumber,
        resolveOutbound env = .ok ctx →
        env.generateControlNumber (isaScope ctx) = .ok isaControlNumber →
        env.generateControlNumber (gsScope ctx) = .ok gsControlNumber →
        (rejectedOf (deliverySettled env ctx isaControlNumber gsControlNumber) ≠ [] →
          handler env =
            { result :=
                .failure
                  (someDeliveriesFailedMessage
                    (rejectedOf (deliverySettled env ctx isaControlNumber gsControlNumber)).length
                    (fulfilledOf (deliverySettled env ctx isaControlNumber gsControlNumber)).length)
                  (some
                    { fulfilled :=
                        fulfilledOf (deliverySettled env ctx isaControlNumber gsControlNumber)
                      rejected :=
                        rejectedOf (deliverySettled env ctx isaControlNumber gsControlNumber) })
              issuedControlNumbers := [isaScope ctx, gsScope ctx] })
        ∧ (rejectedOf (deliverySettled env ctx isaControlNumber gsControlNumber) = [] →
            handler env =
              { result :=
                  .success (fulfilledOf (deliverySettled env ctx isaControlNumber gsControlNumber))
                issuedControlNumbers := [isaScope ctx, gsScope ctx] })) := by
  refine ⟨fun env payload guideId envelope isa tst destinations =>
      ⟨by simp [settledResults], fun j => by simp [settledResults, List.getElem?_map]⟩,
    fulfilled_add_rejected_length,
    fun env ctx isa gs hres hisa hgs => ⟨fun hne => ?_, fun hemp => ?_⟩⟩
  · rw [handler_eq_delivery env ctx isa gs hres hisa hgs]
    have hpos : 0 < (rejectedOf (deliverySettled env ctx isa gs)).length :=
      List.length_pos.mpr hne
    simp [hpos]
  · rw [handler_eq_delivery env ctx isa gs hres hisa hgs]
    simp [hemp]

/-- Witness for C5: on `outboundEnvMixed` the webhook destination rejects
while the bucket destination is delivered, and the handler reports the
structured failure carrying both partitions. -/
theorem destination_failure_isolation_and_aggregation_witness :
    rejectedOf (deliverySettled outboundEnvMixed resolvedMixed 7 8) ≠ []
    ∧ handler outboundEnvMixed =
        { result :=
            .failure
              (someDeliveriesFailedMessage
                (rejectedOf (deliverySettled outboundEnvMixed resolvedMixed 7 8)).length
                (fulfilledOf (deliverySettled outboundEnvMixed resolvedMixed 7 8)).length)
              (some
                { fulfilled := fulfilledOf (deliverySettled outboundEnvMixed resolvedMixed 7 8)
                  rejected := rejectedOf (deliverySettled outboundEnvMixed resolvedMixed 7 8) })
          issuedControlNumbers := [isaScope resolvedMixed, gsScope resolvedMixed] } :=
  ⟨by decide,
   (destination_failure_isolation_and_aggregation.2.2 outboundEnvMixed resolvedMixed 7 8
       (by decide) (by decide) (by decide)).1 (by decide)⟩

/-- C7 (amended): a failure of any resolution step (event shape, either
profile, partnership, transaction set type, config listing, guide,
config selection, functional identifier) aborts the execution with zero
control numbers issued; a GS issuance failure after a successful ISA
issuance aborts with exactly one number issued; once both issuances
succeed, exactly the ISA-scoped and GS-scoped numbers are issued and
every destination attempt receives the single shared envelope carrying
them. -/
theorem fatal_steps_issue_zero_then_two :
    (∀ env e, resolveOutbound env = .error e →
      handler env = { result := .failure e none, issuedControlNumbers := [] })
    ∧ (∀ env ctx isaControlNumber e,
        resolveOutbound env = .ok ctx →
        env.generateControlNumber (isaScope ctx) = .ok isaControlNumber →
        env.generateControlNumber (gsScope ctx) = .error e →
        handler env = { result := .failure e none, issuedControlNumbers := [isaScope ctx] })
    ∧ (∀ env ctx isaControlNumber gsControlNumber,
        resolveOutbound env = .ok ctx →
        env.generateControlNumber (isaScope ctx) = .ok isaControlNumber →
        env.generateControlNumber (gsScope ctx) = .ok gsControlNumber →
        (handler env).issuedControlNumbers = [isaScope ctx, gsScope ctx]
        ∧ (isaScope ctx).segment = "ISA"
        ∧ (gsScope ctx).segment = "GS"
        ∧ (buildEnvelope env ctx isaControlNumber gsControlNumber).interchangeHeader.controlNumber =
            isaControlNumber
        ∧ (buildEnvelope env ctx isaControlNumber gsControlNumber).groupHeader.controlNumber =
            gsControlNumber
        ∧ ∀ j : Nat,
            (deliverySettled env ctx isaControlNumber gsControlNumber)[j]? =
              (ctx.transactionSetConfig.destinations[j]?).map
                (attemptDestination env ctx.outboundEvent.payload ctx.guideId
                  (buildEnvelope env ctx isaControlNumber gsControlNumber) isaControlNumber
                  ctx.transactionSetType)) := by
  refine ⟨fun env e h => by simp [handler, h],
    fun env ctx isa e hres hisa hgs => by simp [handler, hres, hisa, hgs],
    fun env ctx isa gs hres hisa hgs =>
      ⟨?_, rfl, rfl, rfl, rfl, fun j => by simp [deliverySettled, settledResults, List.getElem?_map]⟩⟩
  rw [handler_eq_delivery env ctx isa gs hres hisa hgs]
  by_cases hpos : (rejectedOf (deliverySettled env ctx isa gs)).length > 0 <;> simp [hpos]

/-- Counterexample to C7 as stated: on `outboundEnvGsFails` every listed
resolution step succeeds, yet exactly one control number (the ISA-scoped
one) has been issued, because the GS issuance call throws. -/
theorem gs_issuance_failure_issues_one :
    resolveOutbound outboundEnvGsFails = .ok resolvedGsFails
    ∧ (handler outboundEnvGsFails).issuedControlNumbers.length = 1
    ∧ (handler outboundEnvGsFails).issuedControlNumbers = [isaScope resolvedGsFails] := by
  refine ⟨by decide, by decide, by decide⟩

/-- Witness for C7 (amended) at `outboundEnvMixed`, where both issuances
succeed. -/
theorem fatal_steps_issue_zero_then_two_witness :
    (handler outboundEnvMixed).issuedControlNumbers =
      [isaScope resolvedMixed, gsScope resolvedMixed]
    ∧ (buildEnvelope outboundEnvMixed resolvedMixed 7 8).interchangeHeader.controlNumber = 7
    ∧ (buildEnvelope outboundEnvMixed resolvedMixed 7 8).groupHeader.controlNumber = 8 := by
  have h := fatal_steps_issue_zero_then_two.2.2 outboundEnvMixed resolvedMixed 7 8
    (by decide) (by decide) (by decide)
  exact ⟨h.1, h.2.2.2.1, h.2.2.2.2.1⟩

/-- Counterexample to C9 as stated: when a different record is stored
under each of the two key orders, the two argument orders resolve to
different partnership records. -/
theorem bidirectional_lookup_differs_with_both_keys :
    loadPartnership storeBothKeys "s" "r" = .ok partnershipA
    ∧ loadPartnership storeBothKeys "r" "s" = .ok partnershipB
    ∧ partnershipA ≠ partnershipB :=
  ⟨by decide, by decide, by decide⟩

/-- C9 (amended): when at most one of the two key orders holds a record,
or both hold the same record, resolving the partnership for (s, r) and
for (r, s) yields the same record, namely the one stored under whichever
key is present. -/
theorem bidirectional_lookup_agrees_single_key :
    ∀ (store : String → Option Partnership) (sendingPartnerId receivingPartnerId : String)
      (partnership : Partnership),
      (store (partnershipKey sendingPartnerId receivingPartnerId) = none
        ∨ store (partnershipKey receivingPartnerId sendingPartnerId) = none
        ∨ store (partnershipKey sendingPartnerId receivingPartnerId) =
            store (partnershipKey receivingPartnerId sendingPartnerId)) →
      (loadPartnership store sendingPartnerId receivingPartnerId = .ok partnership ↔
        loadPartnership store receivingPartnerId sendingPartnerId = .ok partnership) := by
  intro store s r p h
  cases hsr : store (partnershipKey s r) with
  | none =>
    cases hrs : store (partnershipKey r s) with
    | none => simp [loadPartnership, hsr, hrs]
    | some b => simp [loadPartnership, hsr, hrs]
  | some a =>
    cases hrs : store (partnershipKey r s) with
    | none => simp [loadPartnership, hsr, hrs]
    | some b =>
      have hab : a = b := by
        rcases h with h | h | h
        · rw [h] at hsr; exact Option.noConfusion hsr
        · rw [h] at hrs; exact Option.noConfusion hrs
        · rw [hsr, hrs] at h; exact Option.some.inj h
      subst hab
      simp [loadPartnership, hsr, hrs]

/-- Witness for C9 (amended): with a record stored only under sA|rA, the
reversed argument order resolves to the same record. -/
theorem bidirectional_lookup_agrees_single_key_witness :
    loadPartnership storeSingleKey "rA" "sA" = .ok partnershipB :=
  (bidirectional_lookup_agrees_single_key storeSingleKey "sA" "rA" partnershipB
      (Or.inr (Or.inl (by decide)))).mp (by decide)

/-- The poller handler on the clean path: config found, protocol
supported, poll succeeded with no processing errors. -/
theorem pollerHandler_success_eq (env : PollerHandlerEnv) (ftpConfigId : String)
    (ftpConfigMap : String → Option FtpPollerConfig) (ftpConfig : FtpPollerConfig)
    (results : FtpPollingResults)
    (hs : env.stashConfigMap = .ok ftpConfigMap)
    (hm : ftpConfigMap ftpConfigId = some ftpConfig)
    (hp : ftpConfig.connectionDetails.protocol ∈ supportedProtocols)
    (hpoll : env.poll ftpConfig = .ok results)
    (herr : results.processingErrors = []) :
    FtpPoller.handler env ftpConfigId =
      { response := .pollingResults results
        persistedConfigMap :=
          some (updatedConfigMap ftpConfigMap ftpConfigId ftpConfig env.now) } := by
  simp [FtpPoller.handler, hs, hm, hp, hpoll, herr]

/-- C8: the stored configuration map is written back only when the poll
returned with an empty processing-error list (every other path, including
a thrown poll, a missing config, an unsupported protocol and a failed
stash read, leaves it unchanged); on the clean path the handler returns
the polling results and writes the map in which only the polled entry is
replaced — its `lastPollTime` set to the current time — while every other
key maps to its previous value. -/
theorem lastPollTime_persisted_only_on_clean_poll :
    (∀ env ftpConfigId,
      (FtpPoller.handler env ftpConfigId).persistedConfigMap = none
      ∨ ∃ ftpConfigMap ftpConfig results,
          env.stashConfigMap = .ok ftpConfigMap
          ∧ ftpConfigMap ftpConfigId = some ftpConfig
          ∧ env.poll ftpConfig = .ok results
          ∧ results.processingErrors = []
          ∧ (FtpPoller.handler env ftpConfigId).persistedConfigMap =
              some (updatedConfigMap ftpConfigMap ftpConfigId ftpConfig env.now))
    ∧ (∀ env ftpConfigId ftpConfigMap ftpConfig results,
        env.stashConfigMap = .ok ftpConfigMap →
        ftpConfigMap ftpConfigId = some ftpConfig →
        ftpConfig.connectionDetails.protocol ∈ supportedProtocols →
        env.poll ftpConfig = .ok results →
        results.processingErrors = [] →
        FtpPoller.handler env ftpConfigId =
          { response := .pollingResults results
            persistedConfigMap :=
              some (updatedConfigMap ftpConfigMap ftpConfigId ftpConfig env.now) })
    ∧ (∀ (ftpConfigMap : String → Option FtpPollerConfig) ftpConfigId ftpConfig (now : Nat),
        updatedConfigMap ftpConfigMap ftpConfigId ftpConfig now ftpConfigId =
          some { ftpConfig with lastPollTime := some now }
        ∧ ∀ key, key ≠ ftpConfigId →
            updatedConfigMap ftpConfigMap ftpConfigId ftpConfig now key = ftpConfigMap key) := by
  refine ⟨fun env ftpConfigId => ?_,
    fun env ftpConfigId m cfg results hs hm hp hpoll herr =>
      pollerHandler_success_eq env ftpConfigId m cfg results hs hm hp hpoll herr,
    fun m ftpConfigId cfg now =>
      ⟨by simp [updatedConfigMap], fun key hk => by simp [updatedConfigMap, hk]⟩⟩
  cases hs : env.stashConfigMap with
  | error e => exact Or.inl (by simp [FtpPoller.handler, hs])
  | ok m =>
    cases hm : m ftpConfigId with
    | none => exact Or.inl (by simp [FtpPoller.handler, hs, hm])
    | some cfg =>
      by_cases hp : cfg.connectionDetails.protocol ∈ supportedProtocols
      · cases hpoll : env.poll cfg with
        | error e => exact Or.inl (by simp [FtpPoller.handler, hs, hm, hp, hpoll])
        | ok results =>
          by_cases herr : results.processingErrors.length > 0
          · exact Or.inl (by simp [FtpPoller.handler, hs, hm, hp, hpoll, herr])
          · have hnil : results.processingErrors = [] :=
              List.length_eq_zero.mp (Nat.eq_zero_of_not_pos herr)
            exact Or.inr ⟨m, cfg, results, rfl, hm, hpoll, hnil,
              by rw [pollerHandler_success_eq env ftpConfigId m cfg results hs hm hp hpoll hnil]⟩
      · exact Or.inl (by simp [FtpPoller.handler, hs, hm, hp])

/-- Witness for C8: a clean poll on a two-entry config map persists only
the polled entry with the fresh `lastPollTime` and leaves the other entry
unchanged. -/
theorem lastPollTime_persisted_only_on_clean_poll_witness :
    FtpPoller.handler pollerHandlerEnvClean "cfgA" =
      { response := .pollingResults cleanResults
        persistedConfigMap := some (updatedConfigMap pollerConfigMapTwo "cfgA" cfgHealthy 777) }
    ∧ updatedConfigMap pollerConfigMapTwo "cfgA" cfgHealthy 777 "cfgA" =
        some { cfgHealthy with lastPollTime := some 777 }
    ∧ updatedConfigMap pollerConfigMapTwo "cfgA" cfgHealthy 777 "other" =
        pollerConfigMapTwo "other" :=
  ⟨lastPollTime_persisted_only_on_clean_poll.2.1 pollerHandlerEnvClean "cfgA" pollerConfigMapTwo
      cfgHealthy cleanResults rfl (by decide) (by decide) rfl rfl,
   (lastPollTime_persisted_only_on_clean_poll.2.2 pollerConfigMapTwo "cfgA" cfgHealthy 777).1,
   (lastPollTime_persisted_only_on_clean_poll.2.2 pollerConfigMapTwo "cfgA" cfgHealthy 777).2
     "other" (by decide)⟩

/-- Running the candidate loop over a prefix of fresh candidates
evaluates each of them, contributing exactly one processed entry or one
processing error per candidate and touching nothing else. -/
theorem pollLoop_append_of_fresh (env : SftpEnv) (ftpConfig : FtpPollerConfig) :
    ∀ (fresh rest : List FileInfo) (acc : FtpPollingResults),
      (∀ f ∈ fresh, lastPollTimestamp ftpConfig ≤ remoteFileTimestamp env f) →
      pollLoop env ftpConfig (fresh ++ rest) acc =
        pollLoop env ftpConfig rest
          { processedFiles :=
              acc.processedFiles ++ fresh.filterMap (candidateSuccessPath env ftpConfig)
            skippedItems := acc.skippedItems
            processingErrors :=
              acc.processingErrors ++ fresh.filterMap (candidateFailure env ftpConfig) } := by
  intro fresh
  induction fresh with
  | nil => intro rest acc _; simp
  | cons f fs ih =>
    intro rest acc hfresh
    have hf := hfresh f (List.mem_cons_self f fs)
    have hnot : ¬ (remoteFileTimestamp env f < lastPollTimestamp ftpConfig) := not_lt.mpr hf
    cases htr : transferCandidate env ftpConfig f with
    | ok u =>
      have hcs : candidateSuccessPath env ftpConfig f =
          some (pathJoin ftpConfig.remotePath f.name) := by
        simp [candidateSuccessPath, htr]
      have hcf : candidateFailure env ftpConfig f = none := by
        simp [candidateFailure, htr]
      simp only [List.cons_append, List.append_eq, pollLoop, if_neg hnot, htr]
      rw [ih rest _ (fun g hg => hfresh g (List.mem_cons_of_mem f hg))]
      simp [hcs, hcf, List.filterMap_cons]
    | error e =>
      have hcs : candidateSuccessPath env ftpConfig f = none := by
        simp [candidateSuccessPath, htr]
      have hcf : candidateFailure env ftpConfig f =
          some { path := pathJoin ftpConfig.remotePath f.name, errorMessage := e } := by
        simp [candidateFailure, htr]
      simp only [List.cons_append, List.append_eq, pollLoop, if_neg hnot, htr]
      rw [ih rest _ (fun g hg => hfresh g (List.mem_cons_of_mem f hg))]
      simp [hcs, hcf, List.filterMap_cons]

/-- A stale candidate at the head of the loop is recorded as skipped and
the loop stops: the remaining candidates do not influence the result. -/
theorem pollLoop_stale_head (env : SftpEnv) (ftpConfig : FtpPollerConfig)
    (staleFile : FileInfo) (rest : List FileInfo) (acc : FtpPollingResults)
    (h : remoteFileTimestamp env staleFile < lastPollTimestamp ftpConfig) :
    pollLoop env ftpConfig (staleFile :: rest) acc =
      { acc with
          skippedItems :=
            acc.skippedItems ++
              [{ path := pathJoin ftpConfig.remotePath staleFile.name
                 reason :=
                   staleReason (remoteFileTimestamp env staleFile)
                     (lastPollTimestamp ftpConfig) }] } := by
  simp [pollLoop, h]

/-- C2 (amended): the first candidate in listing order whose resolved
timestamp is strictly below the watermark is recorded as skipped with a
reason carrying both timestamps; every (fresh) candidate before it is
evaluated to exactly one processed or error entry; and no candidate after
it is evaluated — the result does not depend on them at all. -/
theorem first_stale_candidate_skips_and_halts :
    ∀ (env : SftpEnv) (ftpConfig : FtpPollerConfig) (fresh : List FileInfo)
      (staleFile : FileInfo) (rest : List FileInfo) (acc : FtpPollingResults),
      (∀ f ∈ fresh, lastPollTimestamp ftpConfig ≤ remoteFileTimestamp env f) →
      remoteFileTimestamp env staleFile < lastPollTimestamp ftpConfig →
      pollLoop env ftpConfig (fresh ++ staleFile :: rest) acc =
          { processedFiles :=
              acc.processedFiles ++ fresh.filterMap (candidateSuccessPath env ftpConfig)
            skippedItems :=
              acc.skippedItems ++
                [{ path := pathJoin ftpConfig.remotePath staleFile.name
                   reason :=
                     staleReason (remoteFileTimestamp env staleFile)
                       (lastPollTimestamp ftpConfig) }]
            processingErrors :=
              acc.processingErrors ++ fresh.filterMap (candidateFailure env ftpConfig) }
        ∧ ∃ pre mid post,
            staleReason (remoteFileTimestamp env staleFile) (lastPollTimestamp ftpConfig) =
              pre ++ toString (remoteFileTimestamp env staleFile) ++ mid ++
                toString (lastPollTimestamp ftpConfig) ++ post := by
  intro env ftpConfig fresh staleFile rest acc hfresh hstale
  refine ⟨?_, "remote timestamp (", ") is not newer than last poll timestamp (", ")", rfl⟩
  rw [pollLoop_append_of_fresh env ftpConfig fresh (staleFile :: rest) acc hfresh,
    pollLoop_stale_head env ftpConfig staleFile rest _ hstale]

/-- Witness for C2 (amended): one fresh candidate, then a stale one, then
a ghost candidate; the fresh one is processed, the stale one is skipped
with both timestamps in the reason, the ghost is never evaluated. -/
theorem first_stale_candidate_skips_and_halts_witness :
    pollLoop sftpEnvTwoStale cfgTwoStale
        ([⟨"fr", "-", some 50⟩] ++ ⟨"st", "-", some 3⟩ :: [⟨"gh", "-", some 99⟩])
        { processedFiles := [], skippedItems := [], processingErrors := [] } =
      { processedFiles := ["/in/fr"]
        skippedItems := [{ path := "/in/st", reason := staleReason 3 10 }]
        processingErrors := [] } := by
  have h := first_stale_candidate_skips_and_halts sftpEnvTwoStale cfgTwoStale
    [⟨"fr", "-", some 50⟩] ⟨"st", "-", some 3⟩ [⟨"gh", "-", some 99⟩]
    { processedFiles := [], skippedItems := [], processingErrors := [] }
    (by decide) (by decide)
  exact h.1.trans (by decide)

/-- Counterexample to C2 as stated: with two stale candidates, only the
first is recorded as skipped; the second stale candidate is a candidate
(it is in `filesToProcess`) and is strictly older than the watermark, yet
it appears in no result bucket of the run. -/
theorem stale_candidate_after_break_not_recorded :
    getAllFileDetailsForPath sftpEnvTwoStale "/in" =
      .ok { filesToProcess := [⟨"one", "-", some 5⟩, ⟨"two", "-", some 3⟩]
            skippedItems := [], processingErrors := [] }
    ∧ remoteFileTimestamp sftpEnvTwoStale ⟨"two", "-", some 3⟩ < lastPollTimestamp cfgTwoStale
    ∧ (pollSftp sftpEnvTwoStale cfgTwoStale).outcome =
        .ok { processedFiles := []
              skippedItems := [{ path := "/in/one", reason := staleReason 5 10 }]
              processingErrors := [] }
    ∧ ¬ ("/in/two" ∈
          List.map SkippedItem.path [{ path := "/in/one", reason := staleReason 5 10 }]) := by
  refine ⟨by decide, by decide, by decide, by decide⟩

/-- Counterexample to C4 as stated: a thrown directory listing propagates
to the caller and `sftpClient.end()` is never reached, so the connection
established for the poll is not released on this exit path. -/
theorem listing_throw_leaks_connection :
    pollSftp sftpEnvListingThrows cfgListingThrows =
      { outcome := .error "permission denied", connectionReleased := false } := by
  decide

/-- C4 (amended): the connection is released exactly on the runs in which
`pollSftp` returns a result — including runs whose per-candidate
transfers failed, since those errors are caught — and it is not released
when the connect or listing phase throws. -/
theorem connection_released_iff_poll_returns :
    ∀ (env : SftpEnv) (ftpConfig : FtpPollerConfig),
      (pollSftp env ftpConfig).connectionReleased = true ↔
        ∃ results, (pollSftp env ftpConfig).outcome = .ok results := by
  intro env ftpConfig
  unfold pollSftp
  cases env.connect with
  | error e => simp
  | ok u =>
    cases selectFileDetails env ftpConfig with
    | error e => simp
    | ok fileDetails => simp

/-- Counterexample to C3 as stated: entry "a" resolves to a single match
that is a directory, which is recorded as a per-entry processing error,
yet entry "b" is still evaluated afterwards and becomes a candidate. -/
theorem not_a_file_error_does_not_halt_resolution :
    getSpecifiedFileDetails sftpEnvDirThenFile "/r3" ["a", "b"] =
      .ok { filesToProcess := [⟨"b", "-", some 1⟩]
            skippedItems := []
            processingErrors := [{ path := "/r3/a", errorMessage := notAFileMessage "a" }] } := by
  decide

/-- C3 (amended): during explicit-list resolution, a listing with zero or
two-or-more matches records a per-entry error and halts resolution (the
remaining entries do not influence the non-fatal result), while a single
match that is not a plain file records a per-entry error and resolution
continues with the remaining entries; a plain-file single match becomes a
candidate and resolution continues. -/
theorem explicit_list_error_recording_and_halting :
    ∀ (env : SftpEnv) (remotePath file : String) (rest : List String)
      (filesToProcess : List FileInfo) (processingErrors : List ProcessingError)
      (listResult : List FileInfo),
      env.list (pathJoin remotePath file) = .ok listResult →
      (listResult.length ≠ 1 →
        getSpecifiedFileDetailsFrom env remotePath (file :: rest) filesToProcess
            processingErrors =
          .ok { filesToProcess := filesToProcess
                skippedItems := []
                processingErrors :=
                  processingErrors ++
                    [{ path := pathJoin remotePath file
                       errorMessage := expectedOneMatchMessage (pathJoin remotePath file) }] })
      ∧ (∀ entry, listResult = [entry] → entry.type ≠ "-" →
          getSpecifiedFileDetailsFrom env remotePath (file :: rest) filesToProcess
              processingErrors =
            getSpecifiedFileDetailsFrom env remotePath rest filesToProcess
              (processingErrors ++
                [{ path := pathJoin remotePath file, errorMessage := notAFileMessage file }]))
      ∧ (∀ entry, listResult = [entry] → entry.type = "-" →
          getSpecifiedFileDetailsFrom env remotePath (file :: rest) filesToProcess
              processingErrors =
            getSpecifiedFileDetailsFrom env remotePath rest (filesToProcess ++ [entry])
              processingErrors) := by
  intro env remotePath file rest filesToProcess processingErrors listResult hlist
  refine ⟨fun hne => ?_, fun entry heq ht => ?_, fun entry heq ht => ?_⟩
  · rcases listResult with _ | ⟨a, _ | ⟨b, t⟩⟩
    · simp [getSpecifiedFileDetailsFrom, hlist]
    · exact absurd (by simp : ([a] : List FileInfo).length = 1) hne
    · simp [getSpecifiedFileDetailsFrom, hlist]
  · subst heq
    simp [getSpecifiedFileDetailsFrom, hlist, ht]
  · subst heq
    simp [getSpecifiedFileDetailsFrom, hlist, ht]

/-- Witness for C3 (amended): entry "zz" lists to zero matches and halts
with only its own error recorded; entry "a" lists to a single directory
match, records its error and continues with the remaining entries. -/
theorem explicit_list_error_recording_and_halting_witness :
    getSpecifiedFileDetailsFrom sftpEnvDirThenFile "/r3" ("zz" :: ["b"]) [] [] =
      .ok { filesToProcess := []
            skippedItems := []
            processingErrors :=
              [{ path := "/r3/zz", errorMessage := expectedOneMatchMessage "/r3/zz" }] }
    ∧ getSpecifiedFileDetailsFrom sftpEnvDirThenFile "/r3" ("a" :: ["b"]) [] [] =
        getSpecifiedFileDetailsFrom sftpEnvDirThenFile "/r3" ["b"] []
          [{ path := "/r3/a", errorMessage := notAFileMessage "a" }] := by
  have h1 := (explicit_list_error_recording_and_halting sftpEnvDirThenFile "/r3" "zz" ["b"]
    [] [] [] rfl).1 (by decide)
  have h2 := (explicit_list_error_recording_and_halting sftpEnvDirThenFile "/r3" "a" ["b"]
    [] [] [⟨"a", "d", some 1⟩] rfl).2.1 ⟨"a", "d", some 1⟩ rfl (by decide)
  exact ⟨h1.trans (by decide), h2.trans (by decide)⟩

/-- The directory classification fold splits a listing into its plain
files (candidates) and its non-file skip records, in listing order. -/
theorem foldl_classify (remotePath : String) :
    ∀ (directoryContents : List FileInfo) (acc : RemoteSftpFileDetails),
      directoryContents.foldl (classifyDirectoryEntry remotePath) acc =
        { filesToProcess := acc.filesToProcess ++ directoryContents.filterMap plainFileEntry
          skippedItems :=
            acc.skippedItems ++ directoryContents.filterMap (nonFileSkip remotePath)
          processingErrors := acc.processingErrors } := by
  intro directoryContents
  induction directoryContents with
  | nil => intro acc; simp
  | cons f fs ih =>
    intro acc
    by_cases hf : f.type = "-"
    · simp only [List.foldl_cons, classifyDirectoryEntry, if_pos hf]
      rw [ih]
      simp [plainFileEntry, nonFileSkip, hf, List.filterMap_cons]
    · simp only [List.foldl_cons, classifyDirectoryEntry, if_neg hf]
      rw [ih]
      simp [plainFileEntry, nonFileSkip, hf, List.filterMap_cons]

/-- When every listed entry contributes its path to exactly one of three
selections, the concatenation of the three selections is a permutation of
all listed paths. -/
theorem three_way_filterMap_perm (pathOf : FileInfo → String)
    (A B C : FileInfo → Option String) :
    ∀ l : List FileInfo,
      (∀ f ∈ l,
        (A f = some (pathOf f) ∧ B f = none ∧ C f = none)
        ∨ (A f = none ∧ B f = some (pathOf f) ∧ C f = none)
        ∨ (A f = none ∧ B f = none ∧ C f = some (pathOf f))) →
      (l.filterMap A ++ l.filterMap B ++ l.filterMap C).Perm (l.map pathOf) := by
  intro l
  induction l with
  | nil => intro _; simp
  | cons f fs ih =>
    intro h
    have htail := ih (fun g hg => h g (List.mem_cons_of_mem f hg))
    rcases h f (List.mem_cons_self f fs) with ⟨ha, hb, hc⟩ | ⟨ha, hb, hc⟩ | ⟨ha, hb, hc⟩
    · simp only [List.filterMap_cons, ha, hb, hc, List.map_cons, List.cons_append]
      exact htail.cons (pathOf f)
    · simp only [List.filterMap_cons, ha, hb, hc, List.map_cons]
      refine (List.Perm.append_right _ List.perm_middle).trans ?_
      rw [List.cons_append]
      exact htail.cons (pathOf f)
    · simp only [List.filterMap_cons, ha, hb, hc, List.map_cons]
      exact List.perm_middle.trans (htail.cons (pathOf f))

/-- C6 (amended): in full-directory mode, when no candidate is stale
(so the watermark early-exit does not fire), every entry of the listing
ends up in exactly one result bucket: the multiset of bucketed paths is a
permutation of the listed paths. -/
theorem considered_entries_bucketed_without_early_exit :
    ∀ (env : SftpEnv) (ftpConfig : FtpPollerConfig) (directoryContents : List FileInfo),
      ftpConfig.remoteFiles = none →
      env.connect = .ok () →
      env.list ftpConfig.remotePath = .ok directoryContents →
      (∀ f ∈ directoryContents, f.type = "-" →
        lastPollTimestamp ftpConfig ≤ remoteFileTimestamp env f) →
      ∃ results,
        (pollSftp env ftpConfig).outcome = .ok results
        ∧ (bucketedPaths results).Perm
            (directoryContents.map (fun f => pathJoin ftpConfig.remotePath f.name)) := by
  intro env ftpConfig directoryContents hrf hconn hlist hfresh
  have hdetails : selectFileDetails env ftpConfig =
      .ok { filesToProcess := directoryContents.filterMap plainFileEntry
            skippedItems := directoryContents.filterMap (nonFileSkip ftpConfig.remotePath)
            processingErrors := [] } := by
    simp [selectFileDetails, hrf, getAllFileDetailsForPath, hlist, foldl_classify]
  have hfreshFiles : ∀ f ∈ directoryContents.filterMap plainFileEntry,
      lastPollTimestamp ftpConfig ≤ remoteFileTimestamp env f := by
    intro f hf
    rcases List.mem_filterMap.mp hf with ⟨a, ha, hpe⟩
    by_cases ht : a.type = "-"
    · have : a = f := by simpa [plainFileEntry, ht] using hpe
      exact this ▸ hfresh a ha ht
    · simp [plainFileEntry, ht] at hpe
  have hloop := pollLoop_append_of_fresh env ftpConfig
    (directoryContents.filterMap plainFileEntry) []
    { processedFiles := []
      skippedItems := directoryContents.filterMap (nonFileSkip ftpConfig.remotePath)
      processingErrors := [] } hfreshFiles
  refine ⟨pollLoop env ftpConfig (directoryContents.filterMap plainFileEntry)
    { processedFiles := []
      skippedItems := directoryContents.filterMap (nonFileSkip ftpConfig.remotePath)
      processingErrors := [] }, ?_, ?_⟩
  · simp [pollSftp, hconn, hdetails]
  · rw [List.append_nil] at hloop
    rw [hloop]
    simp only [pollLoop, bucketedPaths, List.nil_append]
    rw [List.filterMap_filterMap, List.filterMap_filterMap, List.map_filterMap,
      List.map_filterMap]
    apply three_way_filterMap_perm
    intro f hfmem
    by_cases ht : f.type = "-"
    · cases htr : transferCandidate env ftpConfig f with
      | ok u =>
        exact Or.inl (by simp [plainFileEntry, nonFileSkip, ht, candidateSuccessPath,
          candidateFailure, htr])
      | error e =>
        exact Or.inr (Or.inr (by simp [plainFileEntry, nonFileSkip, ht, candidateSuccessPath,
          candidateFailure, htr]))
    · exact Or.inr (Or.inl (by simp [plainFileEntry, nonFileSkip, ht]))

/-- Witness for C6 (amended) on a healthy run with one plain file. -/
theorem considered_entries_bucketed_without_early_exit_witness :
    (pollSftp sftpEnvHealthy cfgHealthy).outcome =
      .ok { processedFiles := ["/inW/f"], skippedItems := [], processingErrors := [] } := by
  obtain ⟨results, houtcome, hperm⟩ :=
    considered_entries_bucketed_without_early_exit sftpEnvHealthy cfgHealthy
      [⟨"f", "-", some 50⟩] rfl rfl rfl (by decide)
  rw [houtcome]
  have : results =
      { processedFiles := ["/inW/f"], skippedItems := [], processingErrors := [] } := by
    have := houtcome
    rw [show (pollSftp sftpEnvHealthy cfgHealthy).outcome =
      .ok { processedFiles := ["/inW/f"], skippedItems := [], processingErrors := [] }
        from by decide] at this
    exact (Except.ok.inj this).symm
  rw [this]

/-- Counterexample to C6 as stated: the fresh plain file "b" becomes a
candidate (it is in `filesToProcess`), but because the stale candidate
"a" before it fires the watermark early-exit, "b" ends up in none of the
three result buckets of the run. -/
theorem candidate_after_watermark_break_in_no_bucket :
    getAllFileDetailsForPath sftpEnvStaleThenFresh "/in6" =
      .ok { filesToProcess := [⟨"a", "-", some 5⟩, ⟨"b", "-", some 50⟩]
            skippedItems := [], processingErrors := [] }
    ∧ (pollSftp sftpEnvStaleThenFresh cfgStaleThenFresh).outcome =
        .ok { processedFiles := []
              skippedItems := [{ path := "/in6/a", reason := staleReason 5 10 }]
              processingErrors := [] }
    ∧ ¬ ("/in6/b" ∈
          bucketedPaths
            { processedFiles := []
              skippedItems := [{ path := "/in6/a", reason := staleReason 5 10 }]
              processingErrors := [] }) := by
  refine ⟨by decide, by decide, by decide⟩

end Bootstrap
